import Mathlib

/-!
Verification of `cmd/boulder-va/main.go` — the startup wiring of the
boulder validation-authority (VA) service.

The Go `main` is a straight-line sequence of construction steps, each of
which either succeeds or terminates the process via `cmd.FailOnError`
(modelled here as the `Outcome.fatal` terminal), finishing by registering
and starting the gRPC server (modelled as the `Outcome.serving` terminal,
which carries the fully constructed `ValidationAuthorityImpl` arguments).

External packages (`cmd`, `bdns`, `cdr`, `bgrpc`, `features`,
`time.ParseDuration`, TLS loading) are not under src/; their fallible
results are modelled as oracle fields of a `World` record, while the
values `main` itself computes and passes between them (port defaults,
DNS-try clamping, the resolver-variant choice, the remote-VA list, the
distributed-CAA-resolver arguments) are translated directly from the
source.  Constructors whose bodies are external (`bdns.NewDNSResolverImpl`,
`bdns.NewTestDNSResolverImpl`, `cdr.New`) are modelled as records of the
arguments `main` passes them, since every claim here is about what `main`
passes.  Metrics scope, clock and logger arguments are side-effect-only
collaborators and are omitted.
-/

/-- Go `cmd.PortConfig` (fields `HTTPPort`, `HTTPSPort`, `TLSPort`, Go `int`). -/
structure PortConfig where
  httpPort : Int
  httpsPort : Int
  tlsPort : Int
deriving Repr, DecidableEq

/-- Go `cmd.GoogleSafeBrowsingConfig`; external to src/, its fields are only
forwarded by `main` to the safe-browsing constructors, so its content is
irrelevant here and modelled as a placeholder. -/
structure GoogleSafeBrowsingConfig where
  apiKey : String
deriving Repr, DecidableEq

/-- Go `cmd.CAADistributedResolverConfig`: the fields `main` reads are
`Timeout.Duration` (modelled as integer nanoseconds), `MaxFailures` and
`Proxies`. -/
structure CAADistributedResolverConfig where
  timeout : Int
  maxFailures : Int
  proxies : List String
deriving Repr, DecidableEq

/-- Go `cmd.GRPCClientConfig`: the field `main` reads is `ServerAddresses`. -/
structure GRPCClientConfig where
  serverAddresses : List String
deriving Repr, DecidableEq

/-- The `VA` section of the Go `config` struct in `main.go`.  The embedded
`cmd.ServiceConfig` (GRPC listen address, TLS paths, DebugAddr) is transport
plumbing consumed only by external constructors, modelled through `World`
oracles rather than as data here. -/
structure VAConfig where
  userAgent : String
  issuerDomain : String
  portConfig : PortConfig
  googleSafeBrowsing : Option GoogleSafeBrowsingConfig
  caaDistributedResolver : Option CAADistributedResolverConfig
  dnsTries : Int
  caaSERVFAILExceptions : String
  remoteVAs : List GRPCClientConfig
  maxRemoteValidationFailures : Int
  features : List (String × Bool)
deriving Repr, DecidableEq

/-- The `Common` section of the Go `config` struct in `main.go`. -/
structure CommonConfig where
  dnsResolver : String
  dnsTimeout : String
  dnsAllowLoopbackAddresses : Bool
deriving Repr, DecidableEq

/-- The Go `config` struct of `main.go` (the `Syslog` section is consumed
only by `cmd.StatsAndLogging`, an external collaborator, and omitted). -/
structure Config where
  va : VAConfig
  common : CommonConfig
deriving Repr, DecidableEq

/-- The safe-browsing client variant chosen by `main`: the v4 library when
the `GoogleSafeBrowsingV4` feature flag is enabled, the legacy fork
otherwise. -/
inductive SafeBrowsing where
  | v4 : SafeBrowsing
  | legacy : SafeBrowsing
deriving Repr, DecidableEq

/-- The distributed CAA resolver as constructed by `cdr.New`: a record of
the arguments `main` passes it (timeout, max failures, proxy list; scope
and logger are side-effect collaborators). -/
structure CAADistributedResolver where
  timeout : Int
  maxFailures : Int
  proxies : List String
deriving Repr, DecidableEq

/-- The DNS resolver handed to the validation authority, as a record of the
constructor `main` invoked and the arguments passed.  `prod` is
`bdns.NewDNSResolverImpl`, the production variant that rejects answers
resolving to loopback/private addresses and applies the SERVFAIL exception
list; `test` is `bdns.NewTestDNSResolverImpl`, the test-only variant that
permits loopback addresses and takes no exception list. -/
inductive DNSResolver where
  | prod (dnsTimeout : Int) (servers : List String)
      (caaSERVFAILExceptions : List String) (dnsTries : Int) : DNSResolver
  | test (dnsTimeout : Int) (servers : List String) (dnsTries : Int) : DNSResolver
deriving Repr, DecidableEq

/-- The retry count `main` passed to whichever resolver constructor ran. -/
def DNSResolver.tries : DNSResolver → Int
  | .prod _ _ _ n => n
  | .test _ _ n => n

/-- Whether the production (loopback-rejecting) constructor was the one
invoked. -/
def DNSResolver.isProduction : DNSResolver → Bool
  | .prod _ _ _ _ => true
  | .test _ _ _ => false

/-- The SERVFAIL exception list the resolver was constructed with, when the
invoked constructor takes one (`none` for the test variant, whose
constructor has no such parameter). -/
def DNSResolver.servfailExceptions : DNSResolver → Option (List String)
  | .prod _ _ ex _ => some ex
  | .test _ _ _ => none

/-- One entry of the remote-VA client set: the gRPC connection (identified
by the client configuration `bgrpc.ClientSetup` received) and the display
label `main` computes as `strings.Join(rva.ServerAddresses, ",")`. -/
structure RemoteVA where
  conn : GRPCClientConfig
  label : String
deriving Repr, DecidableEq

/-- The argument bundle `main` passes to `va.NewValidationAuthorityImpl`
(scope, clock and logger omitted as side-effect collaborators). -/
structure VAI where
  pc : PortConfig
  sbc : SafeBrowsing
  cdrClient : Option CAADistributedResolver
  resolver : DNSResolver
  remotes : List RemoteVA
  maxRemoteValidationFailures : Int
  userAgent : String
  issuerDomain : String
deriving Repr, DecidableEq

/-- Results of the external collaborators `main` calls, supplied as oracles:
each field is the outcome the corresponding external call would produce in
this run.  `Option String` fields are `some err` when the call fails;
`Except`-valued fields carry the successful value. -/
structure World where
  readConfig : Except String Config
  featuresSetErr : Option String
  gsbV4Enabled : Bool
  sbcV4Err : Option String
  sbcLegacyErr : Option String
  cdrNewErr : Option String
  parseDuration : String → Except String Int
  readHostList : String → Except String (List String)
  tlsLoadErr : Option String
  clientSetup : GRPCClientConfig → Option String
  newServerErr : Option String
  registerErr : Option String

/-- Terminal states of `main`: `usageExit` is the `flag.Usage(); os.Exit(1)`
path taken when the `-config` flag is empty; `fatal msg` is process
termination through `cmd.FailOnError(err, msg)`; `serving vai` is reaching
the end of `main`, with the gRPC server registered on the fully constructed
validation authority `vai` and `Serve` started. -/
inductive Outcome where
  | usageExit : Outcome
  | fatal (msg : String) : Outcome
  | serving (vai : VAI) : Outcome
deriving Repr, DecidableEq

/-- Port defaulting in `main`: start from `{HTTPPort: 80, HTTPSPort: 443,
TLSPort: 443}` and overwrite each field whose configured value is
nonzero. -/
def effectivePorts (c : PortConfig) : PortConfig :=
  ⟨if c.httpPort ≠ 0 then c.httpPort else 80,
   if c.httpsPort ≠ 0 then c.httpsPort else 443,
   if c.tlsPort ≠ 0 then c.tlsPort else 443⟩

/-- DNS retry clamping in `main`: `if dnsTries < 1 { dnsTries = 1 }`. -/
def clampTries (dnsTries : Int) : Int :=
  if dnsTries < 1 then 1 else dnsTries

/-- The distributed-CAA-resolver construction step: `cdr.New` is invoked
exactly when the `CAADistributedResolver` config section is present, with
that section's timeout, max-failures and proxies; its error is fatal.  When
the section is absent the client stays `nil`. -/
def cdrStep (c : Config) (w : World) : Except String (Option CAADistributedResolver) :=
  match c.va.caaDistributedResolver with
  | none => .ok none
  | some cfg =>
    match w.cdrNewErr with
    | some e => .error e
    | none => .ok (some ⟨cfg.timeout, cfg.maxFailures, cfg.proxies⟩)

/-- The per-entry remote-VA loop in `main`: for each configured remote VA,
`bgrpc.ClientSetup` either fails (fatal, message
`Unable to create remote VA client`) or yields a client appended to the
list with label `strings.Join(rva.ServerAddresses, ",")`. -/
def remotesLoop (clientSetup : GRPCClientConfig → Option String) :
    List GRPCClientConfig → Except String (List RemoteVA)
  | [] => .ok []
  | rva :: rest =>
    match clientSetup rva with
    | some _ => .error "Unable to create remote VA client"
    | none =>
      match remotesLoop clientSetup rest with
      | .error e => .error e
      | .ok rs => .ok (⟨rva, String.intercalate "," rva.serverAddresses⟩ :: rs)

/-- The remote-VA setup block in `main`: only entered when the configured
list is nonempty, in which case the client TLS config is loaded first
(fatal with message `TLS config` on failure) and then the loop runs. -/
def remotesStep (c : Config) (w : World) : Except String (List RemoteVA) :=
  if c.va.remoteVAs.length > 0 then
    match w.tlsLoadErr with
    | some _ => .error "TLS config"
    | none => remotesLoop w.clientSetup c.va.remoteVAs
  else .ok []

/-- Modelled from the spec: the body of `va.NewValidationAuthorityImpl` is
not under src/ (only its call site in `main.go` is).  The spec states that
the number of allowed remote-VA failures "must be satisfiable by the
configured remote VA set size (threshold ≤ set size); violating this is a
configuration error", and that configuration errors are "fatal at startup,
must prevent the service from accepting requests".  The constructor is
therefore modelled as failing when the threshold exceeds the remote VA set
size and otherwise packaging its arguments unchanged into the immutable
validation-authority value. -/
def newValidationAuthorityImpl (pc : PortConfig) (sbc : SafeBrowsing)
    (cdrClient : Option CAADistributedResolver) (resolver : DNSResolver)
    (remotes : List RemoteVA) (maxRemoteValidationFailures : Int)
    (userAgent issuerDomain : String) : Except String VAI :=
  if (remotes.length : Int) < maxRemoteValidationFailures then
    .error "MaxRemoteValidationFailures exceeds the number of remote VAs"
  else
    .ok ⟨pc, sbc, cdrClient, resolver, remotes, maxRemoteValidationFailures,
      userAgent, issuerDomain⟩

/-- The body of `main` after the configuration file has been read and
decoded into `c`, translated step by step from the source; each
`cmd.FailOnError` becomes an `Outcome.fatal` with that call's message. -/
def runWithConfig (c : Config) (w : World) : Outcome :=
  match w.featuresSetErr with
  | some _ => .fatal "Failed to set feature flags"
  | none =>
    let pc := effectivePorts c.va.portConfig
    match (if w.gsbV4Enabled then w.sbcV4Err else w.sbcLegacyErr) with
    | some _ => .fatal "Failed to create Google Safe Browsing client"
    | none =>
      let sbc := if w.gsbV4Enabled then SafeBrowsing.v4 else SafeBrowsing.legacy
      match cdrStep c w with
      | .error _ => .fatal "Failed to create CAADistributedResolver"
      | .ok cdrClient =>
        match w.parseDuration c.common.dnsTimeout with
        | .error _ => .fatal "Couldn't parse DNS timeout"
        | .ok dnsTimeout =>
          let dnsTries := clampTries c.va.dnsTries
          match w.readHostList c.va.caaSERVFAILExceptions with
          | .error _ => .fatal "Couldn't read CAASERVFAILExceptions file"
          | .ok caaSERVFAILExceptions =>
            let resolver : DNSResolver :=
              if !c.common.dnsAllowLoopbackAddresses then
                .prod dnsTimeout [c.common.dnsResolver] caaSERVFAILExceptions dnsTries
              else
                .test dnsTimeout [c.common.dnsResolver] dnsTries
            match remotesStep c w with
            | .error msg => .fatal msg
            | .ok remotes =>
              match newValidationAuthorityImpl pc sbc cdrClient resolver remotes
                  c.va.maxRemoteValidationFailures c.va.userAgent c.va.issuerDomain with
              | .error msg => .fatal msg
              | .ok vai =>
                match w.tlsLoadErr with
                | some _ => .fatal "TLS config"
                | none =>
                  match w.newServerErr with
                  | some _ => .fatal "Unable to setup VA gRPC server"
                  | none =>
                    match w.registerErr with
                    | some _ => .fatal "Unable to register VA gRPC server"
                    | none => .serving vai

/-- The whole of `main`: `configFile` is the value of the `-config` flag;
an empty value prints usage and exits with status 1 before anything else;
otherwise the configuration file is read (fatal on failure) and the
remaining steps run. -/
def runMain (configFile : String) (w : World) : Outcome :=
  if configFile = "" then .usageExit
  else
    match w.readConfig with
    | .error _ => .fatal "Reading JSON config file into config structure"
    | .ok c => runWithConfig c w

/-- The remote-VA list `main` builds when every `bgrpc.ClientSetup` call
succeeds: one entry per configured remote VA, labelled with the
comma-joined server addresses. -/
def buildRemotes (rvas : List GRPCClientConfig) : List RemoteVA :=
  rvas.map (fun rva => ⟨rva, String.intercalate "," rva.serverAddresses⟩)

/-- The distributed CAA resolver value `main` ends up holding: `none` when
the config section is absent, otherwise the client built from that
section's fields. -/
def cdrOf (c : Config) : Option CAADistributedResolver :=
  c.va.caaDistributedResolver.map (fun cfg => ⟨cfg.timeout, cfg.maxFailures, cfg.proxies⟩)

/-- The resolver `main` constructs: the production variant (with the
SERVFAIL exception list) unless `DNSAllowLoopbackAddresses` is set, in
which case the test variant (without it). -/
def buildResolver (c : Config) (dnsTimeout : Int) (ex : List String) : DNSResolver :=
  if !c.common.dnsAllowLoopbackAddresses then
    .prod dnsTimeout [c.common.dnsResolver] ex (clampTries c.va.dnsTries)
  else
    .test dnsTimeout [c.common.dnsResolver] (clampTries c.va.dnsTries)

/-- The validation-authority argument bundle a fully successful run of
`main` constructs from configuration `c`, parsed DNS timeout `dnsTimeout`
and SERVFAIL exception list `ex`. -/
def mkVAI (c : Config) (w : World) (dnsTimeout : Int) (ex : List String) : VAI :=
  ⟨effectivePorts c.va.portConfig,
   if w.gsbV4Enabled then SafeBrowsing.v4 else SafeBrowsing.legacy,
   cdrOf c,
   buildResolver c dnsTimeout ex,
   buildRemotes c.va.remoteVAs,
   c.va.maxRemoteValidationFailures,
   c.va.userAgent,
   c.va.issuerDomain⟩

theorem remotesLoop_eq_ok {cs : GRPCClientConfig → Option String}
    {rvas : List GRPCClientConfig} {rs : List RemoteVA}
    (h : remotesLoop cs rvas = .ok rs) : rs = buildRemotes rvas := by
  induction rvas generalizing rs with
  | nil =>
    simp only [remotesLoop, Except.ok.injEq] at h
    simp [buildRemotes, ← h]
  | cons rva rest ih =>
    simp only [remotesLoop] at h
    split at h
    · exact absurd h (by simp)
    · split at h
      · exact absurd h (by simp)
      · rename_i rs0 hrest
        simp only [Except.ok.injEq] at h
        subst h
        simp [buildRemotes, ih hrest, buildRemotes]

theorem remotesLoop_all_ok {cs : GRPCClientConfig → Option String}
    {rvas : List GRPCClientConfig}
    (h : ∀ rva, cs rva = none) : remotesLoop cs rvas = .ok (buildRemotes rvas) := by
  induction rvas with
  | nil => simp [remotesLoop, buildRemotes]
  | cons rva rest ih => simp [remotesLoop, h rva, ih, buildRemotes]

theorem remotesStep_eq_ok {c : Config} {w : World} {rs : List RemoteVA}
    (h : remotesStep c w = .ok rs) : rs = buildRemotes c.va.remoteVAs := by
  unfold remotesStep at h
  split at h
  · split at h
    · exact absurd h (by simp)
    · exact remotesLoop_eq_ok h
  · rename_i hlen
    have hnil : c.va.remoteVAs = [] := by
      cases hx : c.va.remoteVAs with
      | nil => rfl
      | cons a l => rw [hx] at hlen; simp at hlen
    simp only [Except.ok.injEq] at h
    simp [hnil, buildRemotes, ← h]

theorem remotesStep_all_ok {c : Config} {w : World}
    (htls : w.tlsLoadErr = none)
    (hcs : ∀ rva, w.clientSetup rva = none) :
    remotesStep c w = .ok (buildRemotes c.va.remoteVAs) := by
  unfold remotesStep
  split
  · rw [htls]
    exact remotesLoop_all_ok hcs
  · rename_i hlen
    have hnil : c.va.remoteVAs = [] := by
      cases hx : c.va.remoteVAs with
      | nil => rfl
      | cons a l => rw [hx] at hlen; simp at hlen
    simp [hnil, buildRemotes]

theorem cdrStep_eq_ok {c : Config} {w : World} {x : Option CAADistributedResolver}
    (h : cdrStep c w = .ok x) : x = cdrOf c := by
  unfold cdrStep at h
  split at h
  · rename_i hnone
    simp only [Except.ok.injEq] at h
    simp [cdrOf, hnone, ← h]
  · rename_i cfg hsome
    split at h
    · exact absurd h (by simp)
    · simp only [Except.ok.injEq] at h
      simp [cdrOf, hsome, ← h]

theorem cdrStep_all_ok {c : Config} {w : World}
    (hcdr : w.cdrNewErr = none) : cdrStep c w = .ok (cdrOf c) := by
  unfold cdrStep cdrOf
  cases c.va.caaDistributedResolver <;> simp [hcdr]

theorem newVAI_eq_ok {pc : PortConfig} {sbc : SafeBrowsing}
    {cdrClient : Option CAADistributedResolver} {resolver : DNSResolver}
    {remotes : List RemoteVA} {maxF : Int} {ua issuer : String} {vai : VAI}
    (h : newValidationAuthorityImpl pc sbc cdrClient resolver remotes maxF ua issuer
      = .ok vai) :
    maxF ≤ (remotes.length : Int) ∧
      vai = ⟨pc, sbc, cdrClient, resolver, remotes, maxF, ua, issuer⟩ := by
  unfold newValidationAuthorityImpl at h
  split at h
  · exact absurd h (by simp)
  · rename_i hle
    simp only [Except.ok.injEq] at h
    exact ⟨by omega, h.symm⟩

theorem newVAI_ok_of_le {pc : PortConfig} {sbc : SafeBrowsing}
    {cdrClient : Option CAADistributedResolver} {resolver : DNSResolver}
    {remotes : List RemoteVA} {maxF : Int} {ua issuer : String}
    (hle : maxF ≤ (remotes.length : Int)) :
    newValidationAuthorityImpl pc sbc cdrClient resolver remotes maxF ua issuer
      = .ok ⟨pc, sbc, cdrClient, resolver, remotes, maxF, ua, issuer⟩ := by
  unfold newValidationAuthorityImpl
  rw [if_neg (by omega)]

theorem remotesLoop_mem_ok {cs : GRPCClientConfig → Option String}
    {rvas : List GRPCClientConfig} {rs : List RemoteVA}
    (h : remotesLoop cs rvas = .ok rs) :
    ∀ rva ∈ rvas, cs rva = none := by
  induction rvas generalizing rs with
  | nil =>
    intro rva hm
    exact absurd hm (by simp)
  | cons a rest ih =>
    simp only [remotesLoop] at h
    split at h
    · exact absurd h (by simp)
    · rename_i hnone
      split at h
      · exact absurd h (by simp)
      · rename_i rs0 hrest
        intro rva hm
        rcases List.mem_cons.mp hm with hq | hq
        · rw [hq]
          exact hnone
        · exact ih hrest rva hq

theorem remotesStep_mem_ok {c : Config} {w : World} {rs : List RemoteVA}
    (h : remotesStep c w = .ok rs) :
    ∀ rva ∈ c.va.remoteVAs, w.clientSetup rva = none := by
  unfold remotesStep at h
  split at h
  · split at h
    · exact absurd h (by simp)
    · exact remotesLoop_mem_ok h
  · rename_i hlen
    intro rva hm
    have hnil : c.va.remoteVAs = [] := by
      cases hx : c.va.remoteVAs with
      | nil => rfl
      | cons a l => rw [hx] at hlen; simp at hlen
    rw [hnil] at hm
    exact absurd hm (by simp)

theorem cdrStep_cfg_ok {c : Config} {w : World} {x : Option CAADistributedResolver}
    (h : cdrStep c w = .ok x) :
    ∀ cfg, c.va.caaDistributedResolver = some cfg → w.cdrNewErr = none := by
  intro cfg hcfg
  unfold cdrStep at h
  split at h
  · rename_i hnone
    rw [hcfg] at hnone
    exact Option.noConfusion hnone
  · split at h
    · exact absurd h (by simp)
    · rename_i he
      exact he

theorem runMain_serving_inv {configFile : String} {w : World} {vai : VAI}
    (h : runMain configFile w = .serving vai) :
    configFile ≠ "" ∧ ∃ c dnsTimeout ex,
      w.readConfig = .ok c ∧
      w.featuresSetErr = none ∧
      (if w.gsbV4Enabled then w.sbcV4Err else w.sbcLegacyErr) = none ∧
      (∀ cfg, c.va.caaDistributedResolver = some cfg → w.cdrNewErr = none) ∧
      w.parseDuration c.common.dnsTimeout = .ok dnsTimeout ∧
      w.readHostList c.va.caaSERVFAILExceptions = .ok ex ∧
      (∀ rva ∈ c.va.remoteVAs, w.clientSetup rva = none) ∧
      c.va.maxRemoteValidationFailures ≤ (c.va.remoteVAs.length : Int) ∧
      w.tlsLoadErr = none ∧
      w.newServerErr = none ∧
      w.registerErr = none ∧
      vai = mkVAI c w dnsTimeout ex := by
  unfold runMain at h
  split at h
  · exact absurd h (by simp)
  · rename_i hfile
    split at h
    · exact absurd h (by simp)
    · rename_i c hrc
      refine ⟨hfile, c, ?_⟩
      simp only [runWithConfig] at h
      split at h
      · exact absurd h (by simp)
      · rename_i hfeat
        split at h
        · exact absurd h (by simp)
        · rename_i hsbc
          split at h
          · exact absurd h (by simp)
          · rename_i cdrClient hcdr
            split at h
            · exact absurd h (by simp)
            · rename_i dnsTimeout hdur
              split at h
              · exact absurd h (by simp)
              · rename_i ex hhl
                split at h
                · exact absurd h (by simp)
                · rename_i remotes hrem
                  split at h
                  · exact absurd h (by simp)
                  · rename_i vai0 hvai
                    split at h
                    · exact absurd h (by simp)
                    · rename_i htls
                      split at h
                      · exact absurd h (by simp)
                      · rename_i hsrv
                        split at h
                        · exact absurd h (by simp)
                        · rename_i hreg
                          simp only [Outcome.serving.injEq] at h
                          subst h
                          obtain ⟨hle, hveq⟩ := newVAI_eq_ok hvai
                          have hrs := remotesStep_eq_ok hrem
                          have hcd := cdrStep_eq_ok hcdr
                          subst hrs
                          subst hcd
                          refine ⟨dnsTimeout, ex, hrc, hfeat, hsbc,
                            cdrStep_cfg_ok hcdr, hdur, hhl,
                            remotesStep_mem_ok hrem, ?_, htls,
                            hsrv, hreg, ?_⟩
                          · have : (buildRemotes c.va.remoteVAs).length
                                = c.va.remoteVAs.length := by
                              simp [buildRemotes]
                            omega
                          · rw [hveq]
                            simp [mkVAI, buildResolver]

theorem runMain_ok {configFile : String} {w : World} {c : Config}
    {dnsTimeout : Int} {ex : List String}
    (hfile : configFile ≠ "")
    (hrc : w.readConfig = .ok c)
    (hfeat : w.featuresSetErr = none)
    (hsbc : (if w.gsbV4Enabled then w.sbcV4Err else w.sbcLegacyErr) = none)
    (hcdr : w.cdrNewErr = none)
    (hdur : w.parseDuration c.common.dnsTimeout = .ok dnsTimeout)
    (hhl : w.readHostList c.va.caaSERVFAILExceptions = .ok ex)
    (htls : w.tlsLoadErr = none)
    (hcs : ∀ rva, w.clientSetup rva = none)
    (hthr : c.va.maxRemoteValidationFailures ≤ (c.va.remoteVAs.length : Int))
    (hsrv : w.newServerErr = none)
    (hreg : w.registerErr = none) :
    runMain configFile w = .serving (mkVAI c w dnsTimeout ex) := by
  have hlen : ((buildRemotes c.va.remoteVAs).length : Int)
      = (c.va.remoteVAs.length : Int) := by simp [buildRemotes]
  have hv := @newVAI_ok_of_le (effectivePorts c.va.portConfig)
    (if w.gsbV4Enabled then SafeBrowsing.v4 else SafeBrowsing.legacy)
    (cdrOf c) (buildResolver c dnsTimeout ex) (buildRemotes c.va.remoteVAs)
    c.va.maxRemoteValidationFailures c.va.userAgent c.va.issuerDomain (by omega)
  simp only [runMain, if_neg hfile, hrc]
  simp only [runWithConfig, hfeat, hsbc, cdrStep_all_ok hcdr, hdur, hhl,
    remotesStep_all_ok htls hcs, htls, hsrv, hreg]
  rw [show (if !c.common.dnsAllowLoopbackAddresses then
      DNSResolver.prod dnsTimeout [c.common.dnsResolver] ex (clampTries c.va.dnsTries)
    else DNSResolver.test dnsTimeout [c.common.dnsResolver] (clampTries c.va.dnsTries))
      = buildResolver c dnsTimeout ex from rfl]
  rw [hv]
  rfl

theorem serving_vai_eq {configFile : String} {w : World} {c : Config} {vai : VAI}
    (hrc : w.readConfig = .ok c)
    (h : runMain configFile w = .serving vai) :
    ∃ dnsTimeout ex,
      w.parseDuration c.common.dnsTimeout = .ok dnsTimeout ∧
      w.readHostList c.va.caaSERVFAILExceptions = .ok ex ∧
      vai = mkVAI c w dnsTimeout ex := by
  obtain ⟨-, c2, t, ex, hrc2, -, -, -, hdur, hhl, -, -, -, -, -, hveq⟩ :=
    runMain_serving_inv h
  rw [hrc] at hrc2
  injection hrc2 with hq
  subst hq
  exact ⟨t, ex, hdur, hhl, hveq⟩

/-! Concrete configurations and oracle worlds used by the witnesses. -/

def sampleRVA1 : GRPCClientConfig := ⟨["10.0.0.1:9092", "10.0.0.2:9092"]⟩

def sampleRVA2 : GRPCClientConfig := ⟨["10.0.0.3:9092"]⟩

/-- Production-style configuration: two remote VAs, failure threshold 1,
three DNS tries, a distributed CAA resolver section, default ports. -/
def sampleConfig : Config :=
  ⟨⟨"boulder-va/1.0", "letsencrypt.org", ⟨0, 0, 0⟩, none,
    some ⟨5000000000, 1, ["proxy-a.example", "proxy-b.example"]⟩, 3,
    "servfail-exceptions.txt", [sampleRVA1, sampleRVA2], 1, []⟩,
   ⟨"10.1.1.1:53", "5s", false⟩⟩

/-- Oracle world in which every external call succeeds on `sampleConfig`. -/
def sampleWorld : World :=
  ⟨.ok sampleConfig, none, false, none, none, none,
   fun _ => .ok 5000000000, fun _ => .ok ["bad.example.com"],
   none, fun _ => none, none, none⟩

/-- Configuration whose failure threshold (5) exceeds its remote VA set
size (1). -/
def badThresholdConfig : Config :=
  ⟨⟨"boulder-va/1.0", "letsencrypt.org", ⟨0, 0, 0⟩, none, none, 3,
    "servfail-exceptions.txt", [sampleRVA2], 5, []⟩,
   ⟨"10.1.1.1:53", "5s", false⟩⟩

/-- Oracle world in which every external call succeeds on
`badThresholdConfig`. -/
def badThresholdWorld : World :=
  ⟨.ok badThresholdConfig, none, false, none, none, none,
   fun _ => .ok 5000000000, fun _ => .ok [],
   none, fun _ => none, none, none⟩

/-- Test-style configuration with `DNSAllowLoopbackAddresses` set. -/
def loopbackConfig : Config :=
  ⟨⟨"boulder-va/1.0", "letsencrypt.org", ⟨5002, 5001, 5001⟩, none, none, 0,
    "servfail-exceptions.txt", [], 0, []⟩,
   ⟨"127.0.0.1:8053", "1s", true⟩⟩

/-- Oracle world in which every external call succeeds on
`loopbackConfig`. -/
def loopbackWorld : World :=
  ⟨.ok loopbackConfig, none, false, none, none, none,
   fun _ => .ok 1000000000, fun _ => .ok ["bad.example.com"],
   none, fun _ => none, none, none⟩

/-- Oracle world in which reading the SERVFAIL exception list file fails. -/
def badHostListWorld : World :=
  ⟨.ok sampleConfig, none, false, none, none, none,
   fun _ => .ok 5000000000,
   fun _ => .error "stat servfail-exceptions.txt: no such file or directory",
   none, fun _ => none, none, none⟩

/-- C1: at startup, a configured `MaxRemoteValidationFailures` exceeding the
number of configured remote VAs is fatal before the gRPC service can serve
`PerformValidation` (the run never reaches the `serving` terminal), while
any configuration with threshold ≤ set size starts up and serves, provided
the run's external calls succeed. -/
theorem c1_threshold_must_fit_remote_set :
    (∀ (configFile : String) (w : World) (c : Config) (vai : VAI),
      w.readConfig = .ok c →
      (c.va.remoteVAs.length : Int) < c.va.maxRemoteValidationFailures →
      runMain configFile w ≠ .serving vai) ∧
    (∀ (configFile : String) (w : World) (c : Config) (dnsTimeout : Int)
        (ex : List String),
      configFile ≠ "" →
      w.readConfig = .ok c →
      w.featuresSetErr = none →
      (if w.gsbV4Enabled then w.sbcV4Err else w.sbcLegacyErr) = none →
      w.cdrNewErr = none →
      w.parseDuration c.common.dnsTimeout = .ok dnsTimeout →
      w.readHostList c.va.caaSERVFAILExceptions = .ok ex →
      w.tlsLoadErr = none →
      (∀ rva, w.clientSetup rva = none) →
      c.va.maxRemoteValidationFailures ≤ (c.va.remoteVAs.length : Int) →
      w.newServerErr = none →
      w.registerErr = none →
      runMain configFile w = .serving (mkVAI c w dnsTimeout ex)) := by
  constructor
  · intro configFile w c vai hrc hgt h
    obtain ⟨-, c2, t, ex, hrc2, -, -, -, -, -, -, hle, -, -, -, -⟩ :=
      runMain_serving_inv h
    rw [hrc] at hrc2
    injection hrc2 with hq
    subst hq
    omega
  · intro configFile w c dnsTimeout ex hfile hrc hfeat hsbc hcdr hdur hhl htls
      hcs hthr hsrv hreg
    exact runMain_ok hfile hrc hfeat hsbc hcdr hdur hhl htls hcs hthr hsrv hreg

theorem c1_threshold_must_fit_remote_set_witness :
    (runMain "va.json" badThresholdWorld
        ≠ .serving (mkVAI badThresholdConfig badThresholdWorld 5000000000 [])) ∧
    (runMain "va.json" sampleWorld
        = .serving (mkVAI sampleConfig sampleWorld 5000000000 ["bad.example.com"])) :=
  ⟨c1_threshold_must_fit_remote_set.1 "va.json" badThresholdWorld badThresholdConfig
      (mkVAI badThresholdConfig badThresholdWorld 5000000000 []) rfl (by decide),
   c1_threshold_must_fit_remote_set.2 "va.json" sampleWorld sampleConfig
      5000000000 ["bad.example.com"] (by decide) rfl rfl rfl rfl rfl rfl rfl
      (fun _ => rfl) (by decide) rfl rfl⟩

theorem mkVAI_resolver (c : Config) (w : World) (t : Int) (ex : List String) :
    (mkVAI c w t ex).resolver = buildResolver c t ex := rfl

/-- C2: the retry count `main` passes to the DNS resolver constructor is
the configured `DNSTries` when that value is at least 1, and exactly 1 when
the configured value is less than 1 (zero or negative). -/
theorem c2_dns_tries_clamped (configFile : String) (w : World) (c : Config)
    (vai : VAI)
    (hrc : w.readConfig = .ok c)
    (h : runMain configFile w = .serving vai) :
    (1 ≤ c.va.dnsTries → vai.resolver.tries = c.va.dnsTries) ∧
    (c.va.dnsTries < 1 → vai.resolver.tries = 1) := by
  obtain ⟨t, ex, -, -, hveq⟩ := serving_vai_eq hrc h
  subst hveq
  have htr : (mkVAI c w t ex).resolver.tries = clampTries c.va.dnsTries := by
    rw [mkVAI_resolver]
    unfold buildResolver
    split <;> rfl
  rw [htr]
  unfold clampTries
  constructor
  · intro h1
    rw [if_neg (by omega)]
  · intro h1
    rw [if_pos h1]

theorem c2_dns_tries_clamped_witness :
    (1 ≤ sampleConfig.va.dnsTries →
      (mkVAI sampleConfig sampleWorld 5000000000 ["bad.example.com"]).resolver.tries
        = sampleConfig.va.dnsTries) ∧
    (sampleConfig.va.dnsTries < 1 →
      (mkVAI sampleConfig sampleWorld 5000000000 ["bad.example.com"]).resolver.tries
        = 1) :=
  c2_dns_tries_clamped "va.json" sampleWorld sampleConfig
    (mkVAI sampleConfig sampleWorld 5000000000 ["bad.example.com"]) rfl rfl

/-- C3: the production resolver variant (`bdns.NewDNSResolverImpl`, which
rejects loopback/private addresses) is constructed exactly when
`DNSAllowLoopbackAddresses` is false, and the test variant
(`bdns.NewTestDNSResolverImpl`, which permits loopback) exactly when it is
true. -/
theorem c3_resolver_variant_choice (configFile : String) (w : World) (c : Config)
    (vai : VAI)
    (hrc : w.readConfig = .ok c)
    (h : runMain configFile w = .serving vai) :
    (c.common.dnsAllowLoopbackAddresses = false ↔ vai.resolver.isProduction = true) ∧
    (c.common.dnsAllowLoopbackAddresses = true ↔ vai.resolver.isProduction = false) := by
  obtain ⟨t, ex, -, -, hveq⟩ := serving_vai_eq hrc h
  subst hveq
  rw [mkVAI_resolver]
  unfold buildResolver
  cases hb : c.common.dnsAllowLoopbackAddresses <;>
    simp [hb, DNSResolver.isProduction]

theorem c3_resolver_variant_choice_witness :
    (sampleConfig.common.dnsAllowLoopbackAddresses = false ↔
      (mkVAI sampleConfig sampleWorld 5000000000 ["bad.example.com"]).resolver.isProduction
        = true) ∧
    (sampleConfig.common.dnsAllowLoopbackAddresses = true ↔
      (mkVAI sampleConfig sampleWorld 5000000000 ["bad.example.com"]).resolver.isProduction
        = false) :=
  c3_resolver_variant_choice "va.json" sampleWorld sampleConfig
    (mkVAI sampleConfig sampleWorld 5000000000 ["bad.example.com"]) rfl rfl

/-- C4: the SERVFAIL exception list is loaded via `bdns.ReadHostList` from
the configured `CAASERVFAILExceptions` path; if that read fails the run is
fatal and never serves, and when it succeeds (and the production resolver is
in use) the exception list the resolver is constructed with is exactly the
loaded one. -/
theorem c4_servfail_exception_list :
    (∀ (configFile : String) (w : World) (c : Config) (vai : VAI),
      w.readConfig = .ok c →
      (∃ e, w.readHostList c.va.caaSERVFAILExceptions = .error e) →
      runMain configFile w ≠ .serving vai) ∧
    (∀ (configFile : String) (w : World) (c : Config) (vai : VAI)
        (ex : List String),
      w.readConfig = .ok c →
      runMain configFile w = .serving vai →
      w.readHostList c.va.caaSERVFAILExceptions = .ok ex →
      c.common.dnsAllowLoopbackAddresses = false →
      vai.resolver.servfailExceptions = some ex) := by
  constructor
  · intro configFile w c vai hrc ⟨e, herr⟩ h
    obtain ⟨t, ex, -, hhl, -⟩ := serving_vai_eq hrc h
    rw [herr] at hhl
    exact Except.noConfusion hhl
  · intro configFile w c vai ex hrc h hok hloop
    obtain ⟨t, ex2, -, hhl, hveq⟩ := serving_vai_eq hrc h
    rw [hok] at hhl
    injection hhl with hx
    subst hx
    subst hveq
    rw [mkVAI_resolver]
    unfold buildResolver
    simp [hloop, DNSResolver.servfailExceptions]

theorem c4_servfail_exception_list_witness :
    (runMain "va.json" badHostListWorld
        ≠ .serving (mkVAI sampleConfig badHostListWorld 5000000000 [])) ∧
    ((mkVAI sampleConfig sampleWorld 5000000000 ["bad.example.com"]).resolver.servfailExceptions
        = some ["bad.example.com"]) :=
  ⟨c4_servfail_exception_list.1 "va.json" badHostListWorld sampleConfig
      (mkVAI sampleConfig badHostListWorld 5000000000 [])
      rfl ⟨"stat servfail-exceptions.txt: no such file or directory", rfl⟩,
   c4_servfail_exception_list.2 "va.json" sampleWorld sampleConfig
      (mkVAI sampleConfig sampleWorld 5000000000 ["bad.example.com"])
      ["bad.example.com"] rfl rfl rfl rfl⟩

/-- C5: the ports passed to the validation authority default to 80 for
`HTTPPort` and 443 for both `HTTPSPort` and `TLSPort`; for each port a
nonzero configured value overrides the default and a zero configured value
leaves it in place. -/
theorem c5_challenge_ports (configFile : String) (w : World) (c : Config)
    (vai : VAI)
    (hrc : w.readConfig = .ok c)
    (h : runMain configFile w = .serving vai) :
    vai.pc.httpPort
        = (if c.va.portConfig.httpPort ≠ 0 then c.va.portConfig.httpPort else 80) ∧
    vai.pc.httpsPort
        = (if c.va.portConfig.httpsPort ≠ 0 then c.va.portConfig.httpsPort else 443) ∧
    vai.pc.tlsPort
        = (if c.va.portConfig.tlsPort ≠ 0 then c.va.portConfig.tlsPort else 443) := by
  obtain ⟨t, ex, -, -, hveq⟩ := serving_vai_eq hrc h
  subst hveq
  exact ⟨rfl, rfl, rfl⟩

theorem c5_challenge_ports_witness :
    ((mkVAI sampleConfig sampleWorld 5000000000 ["bad.example.com"]).pc.httpPort
        = (if sampleConfig.va.portConfig.httpPort ≠ 0 then
             sampleConfig.va.portConfig.httpPort else 80)) ∧
    ((mkVAI sampleConfig sampleWorld 5000000000 ["bad.example.com"]).pc.httpsPort
        = (if sampleConfig.va.portConfig.httpsPort ≠ 0 then
             sampleConfig.va.portConfig.httpsPort else 443)) ∧
    ((mkVAI sampleConfig sampleWorld 5000000000 ["bad.example.com"]).pc.tlsPort
        = (if sampleConfig.va.portConfig.tlsPort ≠ 0 then
             sampleConfig.va.portConfig.tlsPort else 443)) :=
  c5_challenge_ports "va.json" sampleWorld sampleConfig
    (mkVAI sampleConfig sampleWorld 5000000000 ["bad.example.com"]) rfl rfl

/-- C6: the distributed CAA resolver is constructed exactly when the
`CAADistributedResolver` config section is present, carrying exactly that
section's timeout, max-failures and proxy set; when the section is absent
the validation authority receives `none` (Go `nil`). -/
theorem c6_distributed_caa_resolver (configFile : String) (w : World)
    (c : Config) (vai : VAI)
    (hrc : w.readConfig = .ok c)
    (h : runMain configFile w = .serving vai) :
    (c.va.caaDistributedResolver = none → vai.cdrClient = none) ∧
    (∀ cfg, c.va.caaDistributedResolver = some cfg →
      vai.cdrClient = some ⟨cfg.timeout, cfg.maxFailures, cfg.proxies⟩) := by
  obtain ⟨t, ex, -, -, hveq⟩ := serving_vai_eq hrc h
  subst hveq
  constructor
  · intro hnone
    show cdrOf c = none
    simp [cdrOf, hnone]
  · intro cfg hsome
    show cdrOf c = some ⟨cfg.timeout, cfg.maxFailures, cfg.proxies⟩
    simp [cdrOf, hsome]

theorem c6_distributed_caa_resolver_witness :
    (sampleConfig.va.caaDistributedResolver = none →
      (mkVAI sampleConfig sampleWorld 5000000000 ["bad.example.com"]).cdrClient = none) ∧
    (∀ cfg, sampleConfig.va.caaDistributedResolver = some cfg →
      (mkVAI sampleConfig sampleWorld 5000000000 ["bad.example.com"]).cdrClient
        = some ⟨cfg.timeout, cfg.maxFailures, cfg.proxies⟩) :=
  c6_distributed_caa_resolver "va.json" sampleWorld sampleConfig
    (mkVAI sampleConfig sampleWorld 5000000000 ["bad.example.com"]) rfl rfl

/-- C7: exactly one RPC client is constructed per configured remote VA
entry, each labelled with the comma-joined server addresses, and the
resulting set together with the failure threshold is what the validation
authority constructor receives; in this pure embedding the served value
carrying exactly the constructed list and threshold expresses that they are
fixed at startup and never mutated afterward. -/
theorem c7_remote_va_set (configFile : String) (w : World) (c : Config)
    (vai : VAI)
    (hrc : w.readConfig = .ok c)
    (h : runMain configFile w = .serving vai) :
    vai.remotes = c.va.remoteVAs.map
        (fun rva => ⟨rva, String.intercalate "," rva.serverAddresses⟩) ∧
    vai.remotes.length = c.va.remoteVAs.length ∧
    vai.maxRemoteValidationFailures = c.va.maxRemoteValidationFailures := by
  obtain ⟨t, ex, -, -, hveq⟩ := serving_vai_eq hrc h
  subst hveq
  refine ⟨rfl, ?_, rfl⟩
  show (buildRemotes c.va.remoteVAs).length = c.va.remoteVAs.length
  simp [buildRemotes]

theorem c7_remote_va_set_witness :
    ((mkVAI sampleConfig sampleWorld 5000000000 ["bad.example.com"]).remotes
        = sampleConfig.va.remoteVAs.map
            (fun rva => ⟨rva, String.intercalate "," rva.serverAddresses⟩)) ∧
    ((mkVAI sampleConfig sampleWorld 5000000000 ["bad.example.com"]).remotes.length
        = sampleConfig.va.remoteVAs.length) ∧
    ((mkVAI sampleConfig sampleWorld 5000000000 ["bad.example.com"]).maxRemoteValidationFailures
        = sampleConfig.va.maxRemoteValidationFailures) :=
  c7_remote_va_set "va.json" sampleWorld sampleConfig
    (mkVAI sampleConfig sampleWorld 5000000000 ["bad.example.com"]) rfl rfl

/-- C8: when `DNSAllowLoopbackAddresses` is true, the resolver `main`
constructs is the test variant, whose constructor takes no SERVFAIL
exception list — so the exception list is carried only by the production
variant. -/
theorem c8_test_resolver_no_exceptions (configFile : String) (w : World)
    (c : Config) (vai : VAI)
    (hrc : w.readConfig = .ok c)
    (h : runMain configFile w = .serving vai)
    (hloop : c.common.dnsAllowLoopbackAddresses = true) :
    vai.resolver.isProduction = false ∧
    vai.resolver.servfailExceptions = none := by
  obtain ⟨t, ex, -, -, hveq⟩ := serving_vai_eq hrc h
  subst hveq
  rw [mkVAI_resolver]
  unfold buildResolver
  simp [hloop, DNSResolver.isProduction, DNSResolver.servfailExceptions]

theorem c8_test_resolver_no_exceptions_witness :
    ((mkVAI loopbackConfig loopbackWorld 1000000000 ["bad.example.com"]).resolver.isProduction
        = false) ∧
    ((mkVAI loopbackConfig loopbackWorld 1000000000 ["bad.example.com"]).resolver.servfailExceptions
        = none) :=
  c8_test_resolver_no_exceptions "va.json" loopbackWorld loopbackConfig
    (mkVAI loopbackConfig loopbackWorld 1000000000 ["bad.example.com"]) rfl rfl rfl

/-- C9: a run that reaches the serving terminal (gRPC server registered and
started) did so with a nonempty config flag, a successfully read
configuration, successful feature-flag setting, successful construction of
the reputation (safe-browsing) client for whichever variant was selected,
successful `cdr.New` whenever a distributed-CAA-resolver section is
configured, successful DNS-timeout parse and exception-list read,
successful `bgrpc.ClientSetup` for every configured remote VA, a
satisfiable failure threshold, successful TLS load, server setup and
registration — and the served validation authority is exactly the fully
constructed bundle `mkVAI` derived from that configuration; hence any
construction or configuration-parse failure terminates the run before the
server starts and a partially initialized engine never serves. -/
theorem c9_serve_only_after_full_construction (configFile : String)
    (w : World) (vai : VAI)
    (h : runMain configFile w = .serving vai) :
    configFile ≠ "" ∧ ∃ c dnsTimeout ex,
      w.readConfig = .ok c ∧
      w.featuresSetErr = none ∧
      (if w.gsbV4Enabled then w.sbcV4Err else w.sbcLegacyErr) = none ∧
      (∀ cfg, c.va.caaDistributedResolver = some cfg → w.cdrNewErr = none) ∧
      w.parseDuration c.common.dnsTimeout = .ok dnsTimeout ∧
      w.readHostList c.va.caaSERVFAILExceptions = .ok ex ∧
      (∀ rva ∈ c.va.remoteVAs, w.clientSetup rva = none) ∧
      c.va.maxRemoteValidationFailures ≤ (c.va.remoteVAs.length : Int) ∧
      w.tlsLoadErr = none ∧
      w.newServerErr = none ∧
      w.registerErr = none ∧
      vai = mkVAI c w dnsTimeout ex :=
  runMain_serving_inv h

theorem c9_serve_only_after_full_construction_witness :
    "va.json" ≠ "" ∧ ∃ c dnsTimeout ex,
      sampleWorld.readConfig = .ok c ∧
      sampleWorld.featuresSetErr = none ∧
      (if sampleWorld.gsbV4Enabled then sampleWorld.sbcV4Err
        else sampleWorld.sbcLegacyErr) = none ∧
      (∀ cfg, c.va.caaDistributedResolver = some cfg →
        sampleWorld.cdrNewErr = none) ∧
      sampleWorld.parseDuration c.common.dnsTimeout = .ok dnsTimeout ∧
      sampleWorld.readHostList c.va.caaSERVFAILExceptions = .ok ex ∧
      (∀ rva ∈ c.va.remoteVAs, sampleWorld.clientSetup rva = none) ∧
      c.va.maxRemoteValidationFailures ≤ (c.va.remoteVAs.length : Int) ∧
      sampleWorld.tlsLoadErr = none ∧
      sampleWorld.newServerErr = none ∧
      sampleWorld.registerErr = none ∧
      mkVAI sampleConfig sampleWorld 5000000000 ["bad.example.com"]
        = mkVAI c sampleWorld dnsTimeout ex :=
  c9_serve_only_after_full_construction "va.json" sampleWorld
    (mkVAI sampleConfig sampleWorld 5000000000 ["bad.example.com"]) rfl

/-- C10: invoked with an empty `-config` flag value, `main` prints usage
and exits with status 1 (the `usageExit` terminal) for every oracle world —
in particular without reading the configuration or starting any service. -/
theorem c10_empty_config_flag_usage_exit (w : World) :
    runMain "" w = .usageExit := by
  unfold runMain
  rw [if_pos rfl]
